import Mathlib

/-!
Shallow embedding of the RentalXpert rental-property management app
(`src/app.py`) and verification of its specification claims.

The app is a Flask CRUD application: owners register and log in, and
list/create properties, tenants, payments and expenses, each query scoped
to the authenticated owner by filtering on `Property.owner_id`.  We embed
the database as lists of records, form/JSON input as association lists of
strings, and each route handler as a pure function from (store, session
identity, input) to (store, outcome).
-/

namespace RentalXpert

/-! ### Python-style primitive parsing

`int(...)` and `float(...)` on strings raise `ValueError` on non-numeric
input; we model them as `Option`-returning parsers.  Python strips
surrounding whitespace and accepts an optional sign; `float` additionally
accepts a decimal point.  `datetime.strptime(s, str1)` with format
`%Y-%m-%d` parses an ISO date; we encode the resulting date as the
natural number `y * 10000 + m * 100 + d`, which orders dates
chronologically.
-/

def charIsDigit (c : Char) : Bool := '0' ≤ c && c ≤ '9'

def digitsVal (ds : List Char) : Nat :=
  ds.foldl (fun n c => n * 10 + (c.toNat - 48)) 0

def charIsSpace (c : Char) : Bool :=
  c == ' ' || c == '\t' || c == '\n' || c == '\r'

/-- Strip leading and trailing whitespace, as Python `int()`/`float()`
do before parsing. -/
def stripChars (cs : List Char) : List Char :=
  ((cs.dropWhile charIsSpace).reverse.dropWhile charIsSpace).reverse

/-- Split a character list on a separator, keeping empty segments, as
Python `str.split(sep)` does. -/
def splitOnChar (sep : Char) (cs : List Char) : List (List Char) :=
  cs.foldr
    (fun c acc =>
      match acc with
      | [] => [[c]]
      | g :: gs => if c == sep then [] :: g :: gs else (c :: g) :: gs)
    [[]]

/-- Split an optional leading sign from a character list; returns
(isNegative, rest). Models the sign handling of Python `int()`/`float()`. -/
def splitSign : List Char → Bool × List Char
  | '-' :: r => (true, r)
  | '+' :: r => (false, r)
  | r => (false, r)

/-- Model of Python `int(s)` for a string `s`: optional sign followed by a
non-empty run of decimal digits; anything else raises `ValueError`
(here: `none`). -/
def pyInt (s : String) : Option Int :=
  let cs := (splitSign (stripChars s.toList))
  if cs.2.isEmpty || !(cs.2.all charIsDigit) then none
  else some (if cs.1 then -(digitsVal cs.2 : Int) else (digitsVal cs.2 : Int))

/-- Model of Python `float(s)` for the decimal forms the app receives:
optional sign, then digits with an optional decimal point, at least one
digit in total.  Returned exactly as a rational. Non-numeric strings
raise `ValueError` (here: `none`). -/
def pyFloat (s : String) : Option Rat :=
  let cs := (splitSign (stripChars s.toList))
  let intPart := cs.2.takeWhile charIsDigit
  let rest := cs.2.dropWhile charIsDigit
  let build : Rat → Option Rat := fun v => some (if cs.1 then -v else v)
  match rest with
  | [] => if intPart.isEmpty then none else build (digitsVal intPart : Rat)
  | '.' :: frac =>
    if frac.all charIsDigit && !(intPart.isEmpty && frac.isEmpty) then
      build ((digitsVal intPart : Rat) + (digitsVal frac : Rat) / (10 ^ frac.length : Nat))
    else none
  | _ => none

/-- Model of `datetime.strptime(s, str1).date()` with format `%Y-%m-%d`:
three dash-separated all-digit components with the month in 1..12 and the
day in 1..31; encoded as `y * 10000 + m * 100 + d`. A malformed string
raises `ValueError` (here: `none`). -/
def pyStrptimeYmd (s : String) : Option Nat :=
  match splitOnChar '-' s.toList with
  | [yc, mc, dc] =>
    if yc.isEmpty || !(yc.all charIsDigit) then none
    else if mc.isEmpty || !(mc.all charIsDigit) then none
    else if dc.isEmpty || !(dc.all charIsDigit) then none
    else
      let m := digitsVal mc
      let d := digitsVal dc
      if 1 ≤ m && m ≤ 12 && 1 ≤ d && d ≤ 31 then
        some (digitsVal yc * 10000 + m * 100 + d)
      else none
  | _ => none

/-! ### Form and JSON input

`request.form` is a string-keyed multidict; `request.form.get(k)` returns
the value or `None`, `request.form.get(k, v0)` returns the value or the
default `v0`.  We model a submitted form as an association list. -/

def Form := List (String × String)

def formGet (f : Form) (k : String) : Option String :=
  (List.lookup k f)

/-- Conversion `int(request.form.get(k, 0))`: when the field is absent the Python
default `0` (already an int) is passed through `int` unchanged; when
present the string is parsed and a non-numeric value raises. -/
def pyIntField (f : Form) (k : String) : Option Int :=
  match formGet f k with
  | none => some 0
  | some v => pyInt v

/-- Conversion `float(request.form.get(k, 0))`: absent field defaults to `0`,
present field is parsed with `float`. -/
def pyFloatField (f : Form) (k : String) : Option Rat :=
  match formGet f k with
  | none => some 0
  | some v => pyFloat v

/-! ### Data model (the SQLAlchemy models of `app.py`)

Only the columns the handlers read or write are carried.  String columns
bound directly from `request.form.get(...)` may be `None` in Python, so
they are `Option String` here.  Auto-increment primary keys are supplied
by the caller as `nextId` arguments. -/

structure Owner where
  id : Nat
  username : Option String
  email : Option String
  password_hash : String
  phone : Option String
deriving Repr, DecidableEq

structure Property where
  id : Nat
  name : Option String
  address : Option String
  property_type : Option String
  bedrooms : Int
  bathrooms : Int
  area_sqft : Rat
  monthly_rent : Rat
  owner_id : Nat
deriving Repr, DecidableEq

structure Tenant where
  id : Nat
  name : Option String
  email : Option String
  phone : Option String
  whatsapp_number : Option String
  lease_start : Nat
  lease_end : Nat
  security_deposit : Rat
  property_id : Int
  is_active : Bool
deriving Repr, DecidableEq

structure Payment where
  id : Nat
  property_id : Int
  tenant_id : Int
  amount : Rat
  payment_date : Nat
  payment_method : Option String
  payment_type : Option String
  status : String
  notes : Option String
deriving Repr, DecidableEq

structure Expense where
  id : Nat
  property_id : Int
  category : Option String
  description : Option String
  amount : Rat
  expense_date : Nat
  vendor : Option String
deriving Repr, DecidableEq

structure MaintenanceRequest where
  id : Nat
  property_id : Int
  tenant_id : Int
  issue_type : Option String
  description : Option String
  priority : Option String
  status : String
deriving Repr, DecidableEq

/-- The relational store (`rental_management.db`). -/
structure Store where
  owners : List Owner
  properties : List Property
  tenants : List Tenant
  payments : List Payment
  expenses : List Expense
  maintenance : List MaintenanceRequest
deriving Repr, DecidableEq

/-- The Flask session: the flask-login user key plus the
`dark_mode` preference key (absent until first toggled). -/
structure Session where
  user : Option Nat
  dark_mode : Option Bool
deriving Repr, DecidableEq

/-- Outcome of a request, abstracting the HTTP response: a redirect
carrying a flashed message, a plain template render, or
`serverError` — an exception escaping the handler, which Flask turns into
a raw 500 failure page (no flash, no form re-render). -/
inductive Outcome where
  | redirectFlash (target : String) (message : String) (category : String)
  | redirectTo (target : String)
  | renderPage (template : String)
  | serverError
deriving Repr, DecidableEq

/-! ### Authentication routes -/

/-- Result of a `POST /register` request. -/
inductive RegisterOutcome where
  | duplicateEmail
  | success
deriving Repr, DecidableEq

/-- Handler `register` (POST branch, `app.py` lines 140-167).  Reads username,
email, password and phone from the form; if an `Owner` with the given
email already exists it flashes an error and redirects back to the
registration form without touching the store; otherwise it hashes the
password (the werkzeug salted one-way hash, abstracted as the function
argument `hash`) and persists a new `Owner`.  The plaintext password is
never stored: only `hash password` reaches the store. -/
def register (s : Store) (f : Form) (hash : Option String → String) (nextId : Nat) :
    Store × RegisterOutcome × Outcome :=
  let email := formGet f "email"
  if s.owners.any (fun o => o.email == email) then
    (s, RegisterOutcome.duplicateEmail,
      Outcome.redirectFlash "register" "Email already registered" "danger")
  else
    let newOwner : Owner :=
      { id := nextId
        username := formGet f "username"
        email := email
        password_hash := hash (formGet f "password")
        phone := formGet f "phone" }
    ({ s with owners := s.owners ++ [newOwner] }, RegisterOutcome.success,
      Outcome.redirectFlash "login" "Registration successful! Please login." "success")

/-- Handler `logout` (`app.py` lines 186-190).  The route is guarded by
`login_required`: an unauthenticated request is redirected to the login
view without running the handler body; an authenticated request runs
`logout_user()` (clearing the user from the session) and redirects to the
index.  The `dark_mode` session key is untouched. -/
def logout (sess : Session) : Session × Outcome :=
  match sess.user with
  | none => (sess, Outcome.redirectTo "login")
  | some _ => ({ sess with user := none }, Outcome.redirectTo "index")

/-- Handler `toggle_dark_mode` (`app.py` lines 128-131).  Sets
`session[str2] = not session.get(str2, False)` where `str2` is the
`dark_mode` key, then redirects to the referrer; the store is never
touched (the route only reads and writes the session). -/
def toggle_dark_mode (s : Store) (sess : Session) : Store × Session × Outcome :=
  (s, { sess with dark_mode := some (!(sess.dark_mode.getD false)) },
    Outcome.redirectTo "referrer")

/-! ### Owner-scoped list queries

Each list route filters through `Property.owner_id == current_user.id`.
`tenants`, `payments`, `expenses` and the dashboard aggregates join the
child table to `Property` on its foreign key; an inner join yields one
output row per matching (child, property) pair, which we model with
`List.bind`. -/

/-- Rows of `SELECT ... FROM child JOIN property ON property.id =
child.property_id WHERE property.owner_id = uid`, for a child table
`rows` whose foreign key is read by `fk`. -/
def joinOwned (props : List Property) (rows : List α) (fk : α → Int) (uid : Nat) :
    List α :=
  rows.flatMap (fun r =>
    (props.filter (fun p => (p.id : Int) == fk r && p.owner_id == uid)).map (fun _ => r))

/-- Handler `properties` (`app.py` lines 225-229):
`Property.query.filter_by(owner_id=current_user.id).all()`. -/
def propertiesHandler (s : Store) (uid : Nat) : List Property :=
  s.properties.filter (fun p => p.owner_id == uid)

/-- Handler `tenants` (`app.py` lines 252-258): Tenant joined to Property,
filtered on the current owner. -/
def tenantsHandler (s : Store) (uid : Nat) : List Tenant :=
  joinOwned s.properties s.tenants (fun t => t.property_id) uid

/-- Descending comparison on payment dates used by
`order_by(Payment.payment_date.desc())`. -/
def paymentDateDesc (a b : Payment) : Bool :=
  b.payment_date ≤ a.payment_date

/-- Handler `payments` (`app.py` lines 282-288): Payment joined to Property,
filtered on the current owner, ordered by `payment_date` descending. -/
def paymentsHandler (s : Store) (uid : Nat) : List Payment :=
  (joinOwned s.properties s.payments (fun p => p.property_id) uid).mergeSort
    paymentDateDesc

/-- Descending comparison on expense dates used by
`order_by(Expense.expense_date.desc())`. -/
def expenseDateDesc (a b : Expense) : Bool :=
  b.expense_date ≤ a.expense_date

/-- Handler `expenses` (`app.py` lines 311-317): Expense joined to Property,
filtered on the current owner, ordered by `expense_date` descending. -/
def expensesHandler (s : Store) (uid : Nat) : List Expense :=
  (joinOwned s.properties s.expenses (fun e => e.property_id) uid).mergeSort
    expenseDateDesc

/-! ### Dashboard aggregation (`app.py` lines 192-223) -/

/-- Count `Property.query.filter_by(owner_id=current_user.id).count()`. -/
def dashboardTotalProperties (s : Store) (uid : Nat) : Nat :=
  (s.properties.filter (fun p => p.owner_id == uid)).length

/-- Count of tenants joined through the owner's properties with
`Tenant.is_active == True`. -/
def dashboardActiveTenants (s : Store) (uid : Nat) : Nat :=
  ((joinOwned s.properties s.tenants (fun t => t.property_id) uid).filter
    (fun t => t.is_active)).length

/-- Sum `db.session.query(db.func.sum(Property.monthly_rent)).filter_by(
owner_id=current_user.id).scalar() or 0`: SQL `SUM` over zero rows is
`NULL`, and Python `or 0` maps both `None` and `0.0` to `0`. -/
def dashboardMonthlyIncome (s : Store) (uid : Nat) : Rat :=
  let props := s.properties.filter (fun p => p.owner_id == uid)
  (if props.isEmpty then none else some ((props.map (fun p => p.monthly_rent)).sum)).getD 0

/-- The dashboard recent-payments query: payments joined through the
owner's properties, ordered by `payment_date` descending, limited to 5. -/
def dashboardRecentPayments (s : Store) (uid : Nat) : List Payment :=
  ((joinOwned s.properties s.payments (fun p => p.property_id) uid).mergeSort
    paymentDateDesc).take 5

/-- Count of maintenance requests joined through the owner's properties
whose status differs from the completed state. -/
def dashboardPendingMaintenance (s : Store) (uid : Nat) : Nat :=
  ((joinOwned s.properties s.maintenance (fun m => m.property_id) uid).filter
    (fun m => m.status ≠ "completed")).length

/-! ### Creation routes -/

/-- Handler `add_property` (POST branch, `app.py` lines 231-250).  The
`Property(...)` constructor call evaluates its arguments left to right;
the first failing conversion (`int` on bedrooms/bathrooms, `float` on
area/rent) raises `ValueError`, which no handler code catches, so Flask
produces a raw 500 failure page and nothing is added to the store.  The
four numeric fields use `request.form.get(k, 0)`, so an absent field
falls back to `0`. -/
def add_property (s : Store) (uid : Nat) (f : Form) (nextId : Nat) :
    Store × Outcome :=
  match pyIntField f "bedrooms" with
  | none => (s, Outcome.serverError)
  | some bd =>
  match pyIntField f "bathrooms" with
  | none => (s, Outcome.serverError)
  | some ba =>
  match pyFloatField f "area_sqft" with
  | none => (s, Outcome.serverError)
  | some ar =>
  match pyFloatField f "monthly_rent" with
  | none => (s, Outcome.serverError)
  | some mr =>
    let newProperty : Property :=
      { id := nextId
        name := formGet f "name"
        address := formGet f "address"
        property_type := formGet f "property_type"
        bedrooms := bd
        bathrooms := ba
        area_sqft := ar
        monthly_rent := mr
        owner_id := uid }
    ({ s with properties := s.properties ++ [newProperty] },
      Outcome.redirectFlash "properties" "Property added successfully!" "success")

/-- Handler `add_tenant` (POST branch, `app.py` lines 260-280).  `lease_start`
and `lease_end` go through `strptime` (raising on `None` or a malformed
date), `security_deposit` through `float(form.get(k, 0))`, and
`property_id` through `int(form.get(k))` with no default (raising when
absent).  The given `property_id` is stored as-is: the handler never
compares it against the current owner's properties. -/
def add_tenant (s : Store) (uid : Nat) (f : Form) (nextId : Nat) :
    Store × Outcome :=
  match (formGet f "lease_start").bind pyStrptimeYmd with
  | none => (s, Outcome.serverError)
  | some ls =>
  match (formGet f "lease_end").bind pyStrptimeYmd with
  | none => (s, Outcome.serverError)
  | some le =>
  match pyFloatField f "security_deposit" with
  | none => (s, Outcome.serverError)
  | some sd =>
  match (formGet f "property_id").bind (fun v => pyInt v) with
  | none => (s, Outcome.serverError)
  | some pid =>
    let newTenant : Tenant :=
      { id := nextId
        name := formGet f "name"
        email := formGet f "email"
        phone := formGet f "phone"
        whatsapp_number := formGet f "whatsapp_number"
        lease_start := ls
        lease_end := le
        security_deposit := sd
        property_id := pid
        is_active := true }
    ({ s with tenants := s.tenants ++ [newTenant] },
      Outcome.redirectFlash "tenants" "Tenant added successfully!" "success")

/-- Handler `send_whatsapp_reminder` (`app.py` lines 325-333).  Reads
`tenant_id` and `message` from the JSON body, performs no lookup, no
validation and no mutation, and unconditionally returns the success
acknowledgement `status: success, message: WhatsApp reminder sent`. -/
def send_whatsapp_reminder (s : Store) (uid : Nat) (body : Form) :
    Store × (String × String) :=
  (s, ("success", "WhatsApp reminder sent"))

/-! ### Transitive ownership and join lemmas -/

/-- A row with foreign key `pid` is transitively owned by owner `oid`
when some `Property` row carries that id and belongs to `oid`. -/
def ownsRow (s : Store) (oid : Nat) (pid : Int) : Prop :=
  ∃ p ∈ s.properties, (p.id : Int) = pid ∧ p.owner_id = oid

theorem mem_joinOwned {α : Type} {props : List Property} {rows : List α}
    {fk : α → Int} {uid : Nat} {r : α} :
    r ∈ joinOwned props rows fk uid ↔
      r ∈ rows ∧ ∃ p ∈ props, (p.id : Int) = fk r ∧ p.owner_id = uid := by
  constructor
  · intro h
    rcases List.mem_flatMap.1 h with ⟨a, ha, hr⟩
    rcases List.mem_map.1 hr with ⟨p, hp, hpr⟩
    rcases List.mem_filter.1 hp with ⟨hpmem, hpred⟩
    simp only [Bool.and_eq_true, beq_iff_eq] at hpred
    subst hpr
    exact ⟨ha, p, hpmem, hpred.1, hpred.2⟩
  · rintro ⟨hr, p, hp, hid, hown⟩
    refine List.mem_flatMap.2 ⟨r, hr, List.mem_map.2 ⟨p, ?_, rfl⟩⟩
    refine List.mem_filter.2 ⟨hp, ?_⟩
    simp only [Bool.and_eq_true, beq_iff_eq]
    exact ⟨hid, hown⟩

theorem joinOwned_eq_nil {α : Type} {props : List Property} {rows : List α}
    {fk : α → Int} {uid : Nat}
    (h : ∀ p ∈ props, p.owner_id ≠ uid) : joinOwned props rows fk uid = [] := by
  unfold joinOwned
  rw [List.flatMap_eq_nil_iff]
  intro r _
  rw [List.map_eq_nil_iff, List.filter_eq_nil_iff]
  intro p hp hpred
  simp only [Bool.and_eq_true, beq_iff_eq] at hpred
  exact h p hp hpred.2

/-! ### Claim theorems -/

/-- C7: `POST /api/send_whatsapp_reminder` mutates nothing and returns the
success acknowledgement for every store, every caller and every JSON body
(in particular for a `tenant_id` that does not exist or belongs to
another owner). -/
theorem send_whatsapp_reminder_pure_ack (s : Store) (uid : Nat) (body : Form) :
    (send_whatsapp_reminder s uid body).1 = s ∧
    (send_whatsapp_reminder s uid body).2 = ("success", "WhatsApp reminder sent") :=
  ⟨rfl, rfl⟩

/-- C8: logging out invalidates the session, and a second invocation on
the already-invalidated session leaves the session in exactly the same
(invalid) state: after one or two invocations the session state is
identical and carries no user. -/
theorem logout_idempotent (sess : Session) :
    (logout (logout sess).1).1 = (logout sess).1 ∧
    (logout sess).1.user = none ∧
    (logout (logout sess).1).1.user = none := by
  cases sess with
  | mk u d => cases u <;> simp [logout]

/-- C10: toggling dark mode twice restores the flag to its original value
(with an absent flag read as `false`), a single toggle on an absent flag
sets it to `true`, and the operation changes neither the store nor the
session's user. -/
theorem toggle_dark_mode_involution (s : Store) (sess : Session) :
    ((toggle_dark_mode (toggle_dark_mode s sess).1
        (toggle_dark_mode s sess).2.1).2.1).dark_mode.getD false
      = sess.dark_mode.getD false ∧
    (toggle_dark_mode s sess).1 = s ∧
    ((toggle_dark_mode s sess).2.1).dark_mode = some (!(sess.dark_mode.getD false)) ∧
    ((toggle_dark_mode s sess).2.1).user = sess.user := by
  cases sess with
  | mk u d => cases d <;> simp [toggle_dark_mode]

/-- C1: owner isolation of the list handlers.  In any store whose
`Property` table satisfies its primary-key constraint, for two owners
with distinct ids every row returned by `/properties` belongs to A, and
every row returned by `/tenants`, `/payments` and `/expenses` is joined
through a property of A and is therefore not transitively owned by B. -/
theorem list_handlers_owner_isolated (s : Store) (A B : Owner)
    (hkey : ∀ p ∈ s.properties, ∀ q ∈ s.properties, p.id = q.id → p = q)
    (hAB : A.id ≠ B.id) :
    (∀ p ∈ propertiesHandler s A.id, p.owner_id = A.id ∧ p.owner_id ≠ B.id) ∧
    (∀ t ∈ tenantsHandler s A.id, ¬ ownsRow s B.id t.property_id) ∧
    (∀ pay ∈ paymentsHandler s A.id, ¬ ownsRow s B.id pay.property_id) ∧
    (∀ e ∈ expensesHandler s A.id, ¬ ownsRow s B.id e.property_id) := by
  have hjoin : ∀ {α : Type} (rows : List α) (fk : α → Int) (r : α),
      r ∈ joinOwned s.properties rows fk A.id → ¬ ownsRow s B.id (fk r) := by
    intro α rows fk r hr hB
    rcases mem_joinOwned.1 hr with ⟨-, p, hp, hpid, hpown⟩
    rcases hB with ⟨q, hq, hqid, hqown⟩
    have hpq : p = q := hkey p hp q hq (by exact_mod_cast hpid.trans hqid.symm)
    exact hAB (hpown ▸ hqown ▸ hpq ▸ rfl)
  refine ⟨?_, ?_, ?_, ?_⟩
  · intro p hp
    have := (List.mem_filter.1 hp).2
    simp only [beq_iff_eq] at this
    exact ⟨this, fun hB => hAB (this ▸ hB)⟩
  · intro t ht
    exact hjoin s.tenants (fun t => t.property_id) t ht
  · intro pay hpay
    exact hjoin s.payments (fun p => p.property_id) pay
      (List.mem_mergeSort.1 hpay)
  · intro e he
    exact hjoin s.expenses (fun e => e.property_id) e
      (List.mem_mergeSort.1 he)

/-- C2: when the store already contains exactly one `Owner` with email
`E` (the schema's unique constraint guarantees at most one), registering
with email `E` fails as a duplicate, the store is returned unchanged, and
afterwards exactly one `Owner` with email `E` exists and no row was
added. -/
theorem register_duplicate_email (s : Store) (f : Form)
    (hash : Option String → String) (nextId : Nat) (E : String)
    (hmail : formGet f "email" = some E)
    (hone : s.owners.countP (fun o => o.email == some E) = 1) :
    (register s f hash nextId).1 = s ∧
    (register s f hash nextId).2.1 = RegisterOutcome.duplicateEmail ∧
    (register s f hash nextId).1.owners.countP (fun o => o.email == some E) = 1 ∧
    (register s f hash nextId).1.owners.length = s.owners.length := by
  have hex : s.owners.any (fun o => o.email == formGet f "email") = true := by
    rw [hmail]
    rw [List.any_eq_true]
    have hpos : 0 < s.owners.countP (fun o => o.email == some E) := by omega
    exact List.countP_pos_iff.1 hpos
  have hreg : register s f hash nextId =
      (s, RegisterOutcome.duplicateEmail,
        Outcome.redirectFlash "register" "Email already registered" "danger") := by
    simp [register, hex]
  rw [hreg]
  exact ⟨rfl, rfl, hone, rfl⟩

/-- C5: the dashboard recent-payments query returns at most five rows,
every one of them joined through a property of the requesting owner, and
the rows are ordered by payment date descending. -/
theorem dashboard_recent_payments_spec (s : Store) (uid : Nat) :
    (dashboardRecentPayments s uid).length ≤ 5 ∧
    (∀ pay ∈ dashboardRecentPayments s uid,
      ∃ p ∈ s.properties, (p.id : Int) = pay.property_id ∧ p.owner_id = uid) ∧
    (dashboardRecentPayments s uid).Pairwise
      (fun a b => b.payment_date ≤ a.payment_date) := by
  refine ⟨List.length_take_le 5 _, ?_, ?_⟩
  · intro pay hpay
    have hmem : pay ∈ joinOwned s.properties s.payments
        (fun p => p.property_id) uid :=
      List.mem_mergeSort.1 (List.mem_of_mem_take hpay)
    exact (mem_joinOwned.1 hmem).2
  · have hsorted : ((joinOwned s.properties s.payments (fun p => p.property_id)
        uid).mergeSort paymentDateDesc).Pairwise
        (fun a b => paymentDateDesc a b = true) :=
      List.sorted_mergeSort
        (by
          intro a b c hab hbc
          simp only [paymentDateDesc, decide_eq_true_eq] at *
          omega)
        (by
          intro a b
          simp only [paymentDateDesc, Bool.or_eq_true, decide_eq_true_eq]
          omega)
        _
    have := List.Pairwise.sublist (List.take_sublist 5 _) hsorted
    exact this.imp (by
      intro a b h
      simpa [paymentDateDesc, decide_eq_true_eq] using h)

/-- C6: for an owner with zero properties, every dashboard statistic is
the numeric zero: total properties, monthly income, active tenants and
pending maintenance all evaluate to `0`. -/
theorem dashboard_zero_properties (s : Store) (uid : Nat)
    (h : s.properties.filter (fun p => p.owner_id == uid) = []) :
    dashboardTotalProperties s uid = 0 ∧
    dashboardMonthlyIncome s uid = 0 ∧
    dashboardActiveTenants s uid = 0 ∧
    dashboardPendingMaintenance s uid = 0 := by
  have hno : ∀ p ∈ s.properties, p.owner_id ≠ uid := by
    intro p hp
    have := List.filter_eq_nil_iff.1 h p hp
    simpa [beq_iff_eq] using this
  refine ⟨?_, ?_, ?_, ?_⟩
  · unfold dashboardTotalProperties
    rw [h]
    rfl
  · unfold dashboardMonthlyIncome
    rw [h]
    rfl
  · unfold dashboardActiveTenants
    rw [joinOwned_eq_nil hno]
    rfl
  · unfold dashboardPendingMaintenance
    rw [joinOwned_eq_nil hno]
    rfl

/-- C3 (amended): submitting `/add_property` with a non-numeric
`monthly_rent` makes the `float` conversion raise an uncaught
`ValueError`: the request ends in a raw failure page (`serverError`), not
a re-rendered form with a flash message, and the store is unchanged — in
particular no `Property` row is created. -/
theorem add_property_bad_rent (s : Store) (uid : Nat) (f : Form) (nextId : Nat)
    (v : String) (hv : formGet f "monthly_rent" = some v)
    (hbad : pyFloat v = none) :
    add_property s uid f nextId = (s, Outcome.serverError) := by
  have hmr : pyFloatField f "monthly_rent" = none := by
    unfold pyFloatField
    rw [hv]
    exact hbad
  unfold add_property
  cases h1 : pyIntField f "bedrooms" with
  | none => rfl
  | some bd =>
    cases h2 : pyIntField f "bathrooms" with
    | none => rfl
    | some ba =>
      cases h3 : pyFloatField f "area_sqft" with
      | none => rfl
      | some ar => rw [hmr]

/-- C4: `/add_tenant` stores the submitted `property_id` without any
ownership check: even under the explicit assumption that no property with
that id belongs to the requesting owner, the handler succeeds and appends
a `Tenant` row carrying exactly the submitted `property_id`. -/
theorem add_tenant_unchecked_foreign_key (s : Store) (uid : Nat) (f : Form)
    (nextId : Nat) (lsv lev pv : String) (dls dle : Nat) (sd : Rat) (P : Int)
    (h1 : formGet f "lease_start" = some lsv) (h2 : pyStrptimeYmd lsv = some dls)
    (h3 : formGet f "lease_end" = some lev) (h4 : pyStrptimeYmd lev = some dle)
    (h5 : pyFloatField f "security_deposit" = some sd)
    (h6 : formGet f "property_id" = some pv) (h7 : pyInt pv = some P)
    (hforeign : ∀ p ∈ s.properties, (p.id : Int) = P → p.owner_id ≠ uid) :
    add_tenant s uid f nextId =
      ({ s with tenants := s.tenants ++
          [(⟨nextId, formGet f "name", formGet f "email", formGet f "phone",
            formGet f "whatsapp_number", dls, dle, sd, P, true⟩ : Tenant)] },
        Outcome.redirectFlash "tenants" "Tenant added successfully!" "success") := by
  simp [add_tenant, h1, h2, h3, h4, h5, h6, h7]

/-- C9: an `/add_property` POST whose numeric fields each either parse or
are absent does not fail: a `Property` row is created, and any absent
numeric field (bedrooms, bathrooms, area_sqft, monthly_rent) takes the
value `0` in the created row. -/
theorem add_property_absent_numeric_defaults (s : Store) (uid : Nat) (f : Form)
    (nextId : Nat) (bd ba : Int) (ar mr : Rat)
    (hbd : pyIntField f "bedrooms" = some bd)
    (hba : pyIntField f "bathrooms" = some ba)
    (har : pyFloatField f "area_sqft" = some ar)
    (hmr : pyFloatField f "monthly_rent" = some mr) :
    add_property s uid f nextId =
      ({ s with properties := s.properties ++
          [(⟨nextId, formGet f "name", formGet f "address",
            formGet f "property_type", bd, ba, ar, mr, uid⟩ : Property)] },
        Outcome.redirectFlash "properties" "Property added successfully!" "success") ∧
    (formGet f "bedrooms" = none → bd = 0) ∧
    (formGet f "bathrooms" = none → ba = 0) ∧
    (formGet f "area_sqft" = none → ar = 0) ∧
    (formGet f "monthly_rent" = none → mr = 0) := by
  refine ⟨by simp [add_property, hbd, hba, har, hmr], ?_, ?_, ?_, ?_⟩
  · intro h
    have h0 : pyIntField f "bedrooms" = some 0 := by simp [pyIntField, h]
    rw [hbd] at h0
    exact Option.some.inj h0
  · intro h
    have h0 : pyIntField f "bathrooms" = some 0 := by simp [pyIntField, h]
    rw [hba] at h0
    exact Option.some.inj h0
  · intro h
    have h0 : pyFloatField f "area_sqft" = some 0 := by simp [pyFloatField, h]
    rw [har] at h0
    exact Option.some.inj h0
  · intro h
    have h0 : pyFloatField f "monthly_rent" = some 0 := by simp [pyFloatField, h]
    rw [hmr] at h0
    exact Option.some.inj h0

/-! ### Concrete sample data for witnesses -/

def ownerAlice : Owner :=
  ⟨1, some "alice", some "alice@mail.com", "hash1", none⟩

def ownerBob : Owner :=
  ⟨2, some "bob", some "bob@mail.com", "hash2", none⟩

def housePropA : Property :=
  ⟨10, some "A House", some "1 First St", some "house", 2, 1, 800, 1200, 1⟩

def housePropB : Property :=
  ⟨20, some "B House", some "2 Second St", some "house", 3, 2, 950, 1500, 2⟩

def tenantTomA : Tenant :=
  ⟨1, some "Tom", none, some "111", none, 20240101, 20241231, 500, 10, true⟩

def tenantTinaB : Tenant :=
  ⟨2, some "Tina", none, some "222", none, 20240101, 20241231, 600, 20, true⟩

def paymentA : Payment :=
  ⟨1, 10, 1, 1200, 20240201, some "cash", some "rent", "completed", none⟩

def paymentB : Payment :=
  ⟨2, 20, 2, 1500, 20240202, some "cash", some "rent", "completed", none⟩

def expenseA : Expense :=
  ⟨1, 10, some "utilities", none, 90, 20240210, none⟩

def expenseB : Expense :=
  ⟨2, 20, some "taxes", none, 150, 20240211, none⟩

def maintReqA : MaintenanceRequest :=
  ⟨1, 10, 1, some "plumbing", none, some "high", "open"⟩

/-- A store with two owners, each owning one property with one tenant,
one payment and one expense; owner 1 additionally has an open
maintenance request.  Owner id 3 owns nothing. -/
def twoOwnerStore : Store :=
  ⟨[ownerAlice, ownerBob], [housePropA, housePropB], [tenantTomA, tenantTinaB],
    [paymentA, paymentB], [expenseA, expenseB], [maintReqA]⟩

/-! ### Witnesses and counterexamples -/

/-- C1 witness: in the two-owner store, tenant Tom is returned by the
tenant listing of owner 1 and is not transitively owned by owner 2. -/
theorem list_handlers_owner_isolated_witness :
    ¬ ownsRow twoOwnerStore ownerBob.id tenantTomA.property_id :=
  (list_handlers_owner_isolated twoOwnerStore ownerAlice ownerBob
    (by decide) (by decide)).2.1 tenantTomA (by decide)

def dupEmailForm : Form :=
  [("username", "alice2"), ("email", "alice@mail.com"), ("password", "pw2"),
    ("phone", "999")]

/-- C2 witness: re-registering the already-present email leaves the
two-owner store unchanged, reports a duplicate, and exactly one owner
with that email remains. -/
theorem register_duplicate_email_witness :
    (register twoOwnerStore dupEmailForm (fun _ => "hash3") 3).1 = twoOwnerStore ∧
    (register twoOwnerStore dupEmailForm (fun _ => "hash3") 3).2.1 =
      RegisterOutcome.duplicateEmail ∧
    (register twoOwnerStore dupEmailForm (fun _ => "hash3") 3).1.owners.countP
      (fun o => o.email == some "alice@mail.com") = 1 ∧
    (register twoOwnerStore dupEmailForm (fun _ => "hash3") 3).1.owners.length =
      twoOwnerStore.owners.length :=
  register_duplicate_email twoOwnerStore dupEmailForm (fun _ => "hash3") 3
    "alice@mail.com" (by decide) (by decide)

def badRentFormCex : Form :=
  [("name", "Flat 1"), ("address", "3 Third St"), ("property_type", "apartment"),
    ("bedrooms", "2"), ("bathrooms", "1"), ("area_sqft", "800"),
    ("monthly_rent", "twelve hundred")]

/-- C3 counterexample: submitting `/add_property` with
`monthly_rent = twelve hundred` does not re-render the form with a flash
message — the uncaught `ValueError` surfaces as a raw failure page
(`serverError`) — although indeed no `Property` row is created. -/
theorem add_property_bad_rent_cex :
    add_property twoOwnerStore 1 badRentFormCex 30 =
      (twoOwnerStore, Outcome.serverError) ∧
    (add_property twoOwnerStore 1 badRentFormCex 30).1.properties =
      twoOwnerStore.properties := by
  constructor <;> decide

def badRentFormW : Form :=
  [("name", "Flat 2"), ("monthly_rent", "abc")]

/-- C3 witness for the amended theorem: a non-numeric `monthly_rent`
yields the raw-failure outcome with the store unchanged. -/
theorem add_property_bad_rent_witness :
    add_property twoOwnerStore 1 badRentFormW 31 =
      (twoOwnerStore, Outcome.serverError) :=
  add_property_bad_rent twoOwnerStore 1 badRentFormW 31 "abc" (by decide) (by decide)

def foreignTenantForm : Form :=
  [("name", "Mallory"), ("phone", "333"), ("lease_start", "2024-01-01"),
    ("lease_end", "2024-12-31"), ("property_id", "20")]

/-- C4 witness: owner 1 posts `/add_tenant` with `property_id = 20`, a
property belonging to owner 2; the tenant is persisted with
`property_id = 20` anyway. -/
theorem add_tenant_unchecked_foreign_key_witness :
    add_tenant twoOwnerStore 1 foreignTenantForm 3 =
      ({ twoOwnerStore with tenants := twoOwnerStore.tenants ++
          [(⟨3, some "Mallory", none, some "333", none, 20240101, 20241231, 0,
            20, true⟩ : Tenant)] },
        Outcome.redirectFlash "tenants" "Tenant added successfully!" "success") := by
  have h := add_tenant_unchecked_foreign_key twoOwnerStore 1 foreignTenantForm 3
    "2024-01-01" "2024-12-31" "20" 20240101 20241231 0 20
    (by decide) (by decide) (by decide) (by decide) (by decide) (by decide)
    (by decide) (by decide)
  simpa [formGet] using h

/-- C5 witness: the recent-payments query of the two-owner store for
owner 1 has at most five rows. -/
theorem dashboard_recent_payments_witness :
    (dashboardRecentPayments twoOwnerStore 1).length ≤ 5 :=
  (dashboard_recent_payments_spec twoOwnerStore 1).1

/-- C6 witness: owner id 3 owns no property in the two-owner store, and
all its dashboard statistics are zero. -/
theorem dashboard_zero_properties_witness :
    dashboardTotalProperties twoOwnerStore 3 = 0 ∧
    dashboardMonthlyIncome twoOwnerStore 3 = 0 ∧
    dashboardActiveTenants twoOwnerStore 3 = 0 ∧
    dashboardPendingMaintenance twoOwnerStore 3 = 0 :=
  dashboard_zero_properties twoOwnerStore 3 (by decide)

def bareNumericForm : Form :=
  [("name", "Bare Flat")]

/-- C9 witness: posting `/add_property` with all four numeric fields
absent creates a row whose bedrooms, bathrooms, area and rent are all
`0`. -/
theorem add_property_absent_numeric_defaults_witness :
    add_property twoOwnerStore 1 bareNumericForm 32 =
      ({ twoOwnerStore with properties := twoOwnerStore.properties ++
          [(⟨32, some "Bare Flat", none, none, 0, 0, 0, 0, 1⟩ : Property)] },
        Outcome.redirectFlash "properties" "Property added successfully!" "success") := by
  have h := add_property_absent_numeric_defaults twoOwnerStore 1 bareNumericForm 32
    0 0 0 0 (by decide) (by decide) (by decide) (by decide)
  simpa [formGet] using h.1

end RentalXpert
